import Mathlib

/-!
Verification of the FastAPI example application in `src/app/main.py`.

The application is a list of route declarations, each binding a path template
to a small pure handler.  We embed:

* the response values produced by the handlers (`Value`),
* the handlers themselves, translated line by line from `main.py`,
* the route table, in declaration order, and the framework's first-match
  routing over compiled path templates (Starlette semantics: a template is a
  sequence of literal runs, `[^/]+` parameters and trailing `.*` path
  parameters, anchored at both ends of the request path),
* the framework's parameter binding where a claim needs it (enum-valued path
  parameters, required query parameters, boolean coercion).

Python integers are `Int`; Python list slicing is `pySlice` with Python's
negative-index and clamping semantics; Python dicts that the handlers build
are association lists in construction order.
-/

namespace FastApiApp

/-- JSON-like values returned by the handlers. -/
inductive Value where
  | str : String → Value
  | int : Int → Value
  | list : List Value → Value
  | obj : List (String × Value) → Value

/-- The keys of an object response, in order; `[]` for non-objects. -/
def respKeys : Value → List String
  | Value.obj kvs => kvs.map Prod.fst
  | _ => []

/-- Look a key up in an object response. -/
def respGet (v : Value) (k : String) : Option Value :=
  match v with
  | Value.obj kvs => kvs.lookup k
  | _ => none

/-- Result of dispatching one HTTP request: a handler's 200 response, the
framework's 422 validation error, or a 404 when no route matches. -/
inductive ApiResult where
  | ok : Value → ApiResult
  | validationError : ApiResult
  | notFound : ApiResult

/-! ## Python helpers -/

/-- Python truthiness of an optional string (`if q:`): `None` and `""` are
falsy, every other string is truthy. -/
def pyTruthy : Option String → Bool
  | none => false
  | some s => !(s == "")

/-- Normalize one Python slice bound: a negative bound counts from the end,
and both directions clamp into `[0, len]`. -/
def pySliceIdx (len : Nat) (i : Int) : Nat :=
  if i < 0 then ((len : Int) + i).toNat else min i.toNat len

/-- Python list slicing `l[i:j]` (step 1). -/
def pySlice (l : List Value) (i j : Int) : List Value :=
  (l.take (pySliceIdx l.length j)).drop (pySliceIdx l.length i)

/-! ## The ModelName enum and the handlers (translated from `src/app/main.py`) -/

/-- The `ModelName(str, Enum)` class: members `alfa`, `beta`, `gamma`. -/
inductive ModelName where
  | alfa
  | beta
  | gamma
deriving DecidableEq

/-- The string value of each `ModelName` member, exactly as written in the
source: `alfa = "Alfa"`, `beta = "Beta"`, `gamma = "Gamma"`. -/
def ModelName.value : ModelName → String
  | ModelName.alfa => "Alfa"
  | ModelName.beta => "Beta"
  | ModelName.gamma => "Gamma"

/-- Modelled from the spec: the framework converts the `model_name` path
segment to the enum by value (`ModelName` is the only part of this in the
repository's source; the pydantic conversion layer is not under `src/`).
A segment is accepted exactly when it equals one member's `value`. -/
def parseModelName (s : String) : Option ModelName :=
  if s = ModelName.alfa.value then some ModelName.alfa
  else if s = ModelName.beta.value then some ModelName.beta
  else if s = ModelName.gamma.value then some ModelName.gamma
  else none

/-- Handler of `GET /` (`read_root`). -/
def read_root : Value :=
  Value.obj [("message", Value.str "Hello world!")]

/-- Handler of `GET /items/{item_id}` (the first `read_item` in the source). -/
def read_item (item_id : Int) : Value :=
  Value.obj [("item id", Value.int item_id)]

/-- Handler of `GET /users/me` (`read_current_user`). -/
def read_current_user : Value :=
  Value.obj [("current user", Value.str "me")]

/-- Handler of `GET /users/{user}` (`read_user`; the parameter has no type
hint, so the framework passes the raw path segment). -/
def read_user (user : String) : Value :=
  Value.obj [("user", Value.str user)]

/-- Handler of the first `GET /users` declaration (`get_allUsers`). -/
def get_allUsers : Value :=
  Value.obj [("all users", Value.str "users")]

/-- Handler of the second `GET /users` declaration (`get_users`). -/
def get_users : Value :=
  Value.obj [("all users 2", Value.str "users")]

/-- Handler of `GET /models/{model_name}` (`get_model`): the first branch
tests identity with `ModelName.alfa`, the second compares `model_name.value`
with the lowercase literal `"beta"`, the final return is the Gamma case. -/
def get_model (model_name : ModelName) : Value :=
  if model_name = ModelName.alfa then
    Value.obj [("model_name", Value.str model_name.value),
               ("message", Value.str "Alfa model")]
  else if model_name.value = "beta" then
    Value.obj [("model_name", Value.str model_name.value),
               ("message", Value.str "Beta model")]
  else
    Value.obj [("model_name", Value.str model_name.value),
               ("message", Value.str "Gamma model")]

/-- Handler of the `file/{file_path:path}` declaration (`read_file`). -/
def read_file (file_path : String) : Value :=
  Value.obj [("file_path", Value.str file_path)]

/-- The literal sample list `fake_items_db`. -/
def fake_items_db : List Value :=
  [Value.obj [("item_name", Value.str "Foo")],
   Value.obj [("item_name", Value.str "Bar")],
   Value.obj [("item_name", Value.str "Baz")]]

/-- Body of `GET /items/` (the second `read_item` in the source), reading an
arbitrary database state (the program always passes `fake_items_db`). -/
def read_items_db (db : List Value) (skip limit : Int) : Value :=
  Value.list (pySlice db skip (skip + limit))

/-- Handler of `GET /items/` applied to the program's `fake_items_db`. -/
def read_items (skip limit : Int) : Value :=
  read_items_db fake_items_db skip limit

/-- Body of `GET /items/optional/` (`read_optional_items`) over an arbitrary
database state: `skip=None` returns the whole list, otherwise the slice
`db[skip : skip + limit]`. -/
def read_optional_items_db (db : List Value) (skip : Option Int) (limit : Int) : Value :=
  match skip with
  | some s => Value.list (pySlice db s (s + limit))
  | none => Value.list db

/-- Handler of `GET /items/optional/` applied to the program's
`fake_items_db`; `limit` defaults to 10 in the source. -/
def read_optional_items (skip : Option Int) (limit : Int) : Value :=
  read_optional_items_db fake_items_db skip limit

/-- Handler of `GET /items/optional/{item_id}` (the third `read_item`). -/
def read_optional_item (item_id : String) (q : Option String) : Value :=
  if pyTruthy q then
    Value.obj [("item_id", Value.str item_id), ("q", Value.str (q.getD ""))]
  else
    Value.obj [("item_id", Value.str item_id)]

/-- Handler of `GET /items/bool/{item_id}` (`read_bool_item`): builds
`{"item_id": ...}`, adds `"q"` when `q` is truthy, then adds the
(misspelled in the source) `"desciption"` key, short or long by `short`. -/
def read_bool_item (item_id : String) (q : Option String) (short : Bool) : Value :=
  let base := [("item_id", Value.str item_id)]
  let withQ := if pyTruthy q then base ++ [("q", Value.str (q.getD ""))] else base
  if short then
    Value.obj (withQ ++ [("desciption", Value.str "The description of the item is short")])
  else
    Value.obj (withQ ++ [("desciption", Value.str "The description of the item is long")])

/-- Handler of `GET /users/{user_id}/items/{item_id}` (`read_user_item`). -/
def read_user_item (user_id : Int) (item_id : String) (q : Option String) (short : Bool) : Value :=
  let base := [("user_id", Value.int user_id), ("item_id", Value.str item_id)]
  let withQ := if pyTruthy q then base ++ [("q", Value.str (q.getD ""))] else base
  if short then
    Value.obj (withQ ++ [("desciption", Value.str "The description of the item is short")])
  else
    Value.obj (withQ ++ [("desciption", Value.str "The description of the item is long")])

/-- Handler of `GET /item/required/{item_id}/` (`read_required_item`). -/
def read_required_item (item_id : Int) (needy : String) : Value :=
  Value.obj [("item", Value.int item_id), ("needy", Value.str needy)]

/-! ## Framework parameter binding used by the claims -/

/-- Modelled from the spec: dispatch of `GET /models/{model_name}` including
the framework's enum validation (the validation layer is not under `src/`):
an unrecognized segment yields the 422 validation error, a recognized one
invokes `get_model`. -/
def call_get_model (s : String) : ApiResult :=
  match parseModelName s with
  | some m => ApiResult.ok (get_model m)
  | none => ApiResult.validationError

/-- Modelled from the spec: binding of the required query parameter `needy`
("Query parameters without a default are treated as required; supplying none
yields a framework-generated validation error"); the handler itself is from
the source. -/
def call_read_required_item (item_id : Int) (needy : Option String) : ApiResult :=
  match needy with
  | some n => ApiResult.ok (read_required_item item_id n)
  | none => ApiResult.validationError

/-- Lower-case a string character by character (`str.lower()` on ASCII). -/
def lowerStr (s : String) : String :=
  String.mk (s.toList.map Char.toLower)

/-- Modelled from the spec: the framework's case-insensitive boolean coercion
of query-string values ("Primitive-type query parameters undergo
case-insensitive boolean coercion for truthy/falsy string forms"; the source
comment lists true/1/yes/on and case variations). The pydantic layer that
performs it is not under `src/`. -/
def coerceBool (s : String) : Option Bool :=
  if lowerStr s ∈ ["true", "1", "yes", "on", "t", "y"] then some true
  else if lowerStr s ∈ ["false", "0", "no", "off", "f", "n"] then some false
  else none

/-- Modelled from the spec: binding of the `short` query parameter of
`read_bool_item`, whose source default is `False` when the parameter is
absent; a present value goes through `coerceBool` (`none` = 422). -/
def bindShort (q : Option String) : Option Bool :=
  match q with
  | none => some false
  | some s => coerceBool s

/-! ## The route table and first-match routing -/

/-- One piece of a compiled path template: a literal run of characters, a
`{name}` parameter (`[^/]+`), or a `{name:path}` parameter (`.*`, only used
in final position by this application). -/
inductive Part where
  | lit : String → Part
  | param : String → Part
  | pathParam : String → Part
deriving DecidableEq

/-- Tags for the fourteen handlers, in declaration order of the source. -/
inductive Handler where
  | read_root
  | read_item
  | read_current_user
  | read_user
  | get_allUsers
  | get_users
  | get_model
  | read_file
  | read_items
  | read_optional_items
  | read_optional_item
  | read_bool_item
  | read_user_item
  | read_required_item
deriving DecidableEq

/-- Consume an expected literal run of characters from the front of the
request path; `none` on mismatch. -/
def stripChars : List Char → List Char → Option (List Char)
  | [], cs => some cs
  | _ :: _, [] => none
  | e :: es, c :: cs => if e = c then stripChars es cs else none

/-- Match a compiled template against the whole remaining request path
(anchored, as Starlette's `^...$` regex is), returning the parameter
bindings in template order. A `param` consumes the maximal nonempty run of
non-`/` characters; a `pathParam` consumes the whole rest. -/
def matchParts : List Part → List Char → Option (List (String × String))
  | [], [] => some []
  | [], _ :: _ => none
  | Part.lit s :: ps, cs =>
    match stripChars s.toList cs with
    | some rest => matchParts ps rest
    | none => none
  | Part.param n :: ps, cs =>
    let seg := cs.takeWhile (fun c => !(c == '/'))
    let rest := cs.dropWhile (fun c => !(c == '/'))
    if seg.isEmpty then none
    else (matchParts ps rest).map (fun bs => (n, String.mk seg) :: bs)
  | Part.pathParam n :: ps, cs =>
    match ps with
    | [] => some [(n, String.mk cs)]
    | _ :: _ => none

/-- The application's route table, in declaration order, with each template
compiled exactly from the string given to `@app.get(...)` in the source.
Note the `read_file` route: the source registers `"file/{file_path:path}"`
with no leading slash, so its compiled template starts with the literal
`file/`. -/
def routes : List (Handler × List Part) :=
  [(Handler.read_root, [Part.lit "/"]),
   (Handler.read_item, [Part.lit "/items/", Part.param "item_id"]),
   (Handler.read_current_user, [Part.lit "/users/me"]),
   (Handler.read_user, [Part.lit "/users/", Part.param "user"]),
   (Handler.get_allUsers, [Part.lit "/users"]),
   (Handler.get_users, [Part.lit "/users"]),
   (Handler.get_model, [Part.lit "/models/", Part.param "model_name"]),
   (Handler.read_file, [Part.lit "file/", Part.pathParam "file_path"]),
   (Handler.read_items, [Part.lit "/items/"]),
   (Handler.read_optional_items, [Part.lit "/items/optional/"]),
   (Handler.read_optional_item, [Part.lit "/items/optional/", Part.param "item_id"]),
   (Handler.read_bool_item, [Part.lit "/items/bool/", Part.param "item_id"]),
   (Handler.read_user_item, [Part.lit "/users/", Part.param "user_id",
                             Part.lit "/items/", Part.param "item_id"]),
   (Handler.read_required_item, [Part.lit "/item/required/", Part.param "item_id", Part.lit "/"])]

/-- First-match routing over a route list ("path operations are evaluated in
order"): the first template that matches the request path wins. -/
def findRoute : List (Handler × List Part) → List Char → Option (Handler × List (String × String))
  | [], _ => none
  | (h, t) :: rs, cs =>
    match matchParts t cs with
    | some bs => some (h, bs)
    | none => findRoute rs cs

/-- Route a GET request path through the application's route table. -/
def matchRoute (p : String) : Option (Handler × List (String × String)) :=
  findRoute routes p.toList

/-! ## Requests and the dispatch step (for the immutability claim) -/

/-- One fully bound GET request, one constructor per endpoint of the
application, carrying the already-coerced handler arguments. -/
inductive Request where
  | root : Request
  | item : Int → Request
  | currentUser : Request
  | user : String → Request
  | allUsers : Request
  | model : String → Request
  | file : String → Request
  | items : Int → Int → Request
  | optionalItems : Option Int → Int → Request
  | optionalItem : String → Option String → Request
  | boolItem : String → Option String → Bool → Request
  | userItem : Int → String → Option String → Bool → Request
  | requiredItem : Int → Option String → Request

/-- Dispatch one request against the current in-memory database state and
return the response together with the state afterwards.  Every handler of
the source only reads `fake_items_db` (slicing copies), so each case passes
the state through.  The `file` endpoint is the dead route (registered
without a leading slash): it answers 404.  The duplicate `/users` route
dispatches to the first declaration, `get_allUsers`. -/
def handleRequest : Request → List Value → ApiResult × List Value
  | Request.root, db => (ApiResult.ok read_root, db)
  | Request.item i, db => (ApiResult.ok (read_item i), db)
  | Request.currentUser, db => (ApiResult.ok read_current_user, db)
  | Request.user u, db => (ApiResult.ok (read_user u), db)
  | Request.allUsers, db => (ApiResult.ok get_allUsers, db)
  | Request.model s, db => (call_get_model s, db)
  | Request.file _, db => (ApiResult.notFound, db)
  | Request.items skip limit, db => (ApiResult.ok (read_items_db db skip limit), db)
  | Request.optionalItems skip limit, db =>
      (ApiResult.ok (read_optional_items_db db skip limit), db)
  | Request.optionalItem i q, db => (ApiResult.ok (read_optional_item i q), db)
  | Request.boolItem i q short, db => (ApiResult.ok (read_bool_item i q short), db)
  | Request.userItem u i q short, db => (ApiResult.ok (read_user_item u i q short), db)
  | Request.requiredItem i needy, db => (call_read_required_item i needy, db)

/-- The database state after a sequence of requests. -/
def runRequests (reqs : List Request) (db : List Value) : List Value :=
  reqs.foldl (fun d r => (handleRequest r d).2) db

/-! ## Helper lemmas -/

/-- Characterization of literal consumption: `stripChars xs cs` succeeds with
remainder `r` exactly when `cs` is `xs` followed by `r`. -/
theorem stripChars_eq_some (xs : List Char) :
    ∀ cs r : List Char, stripChars xs cs = some r ↔ cs = xs ++ r := by
  induction xs with
  | nil =>
    intro cs r
    simp [stripChars]
  | cons e es ih =>
    intro cs r
    cases cs with
    | nil => simp [stripChars]
    | cons c cs' =>
      simp only [stripChars]
      by_cases h : e = c
      · rw [if_pos h, ih cs' r]
        subst h
        simp
      · rw [if_neg h]
        constructor
        · intro hc
          simp at hc
        · intro hc
          injection hc with h1 h2
          exact absurd h1.symm h

/-! ## Claims -/

/-- Claim C10 (confirmed): for both the `beta` and the `gamma` member,
`get_model` answers with the message "Gamma model"; the comparison
`model_name.value == "beta"` of the second branch is false for every
member (the member's value is `"Beta"`), so that branch is unreachable. -/
theorem get_model_beta_branch_unreachable :
    (∀ m : ModelName, (m.value == "beta") = false) ∧
    get_model ModelName.beta =
      Value.obj [("model_name", Value.str "Beta"), ("message", Value.str "Gamma model")] ∧
    get_model ModelName.gamma =
      Value.obj [("model_name", Value.str "Gamma"), ("message", Value.str "Gamma model")] ∧
    get_model ModelName.alfa =
      Value.obj [("model_name", Value.str "Alfa"), ("message", Value.str "Alfa model")] := by
  refine ⟨fun m => ?_, rfl, rfl, rfl⟩
  cases m <;> rfl

/-- Claim C1, counterexample: the lowercase segment "alfa" is not accepted by
the `model_name` conversion; it draws the validation error, not a handler
response, so the accepted set is not `{alfa, beta, gamma}`. -/
theorem models_reject_lowercase_alfa :
    parseModelName "alfa" = none ∧
    call_get_model "alfa" = ApiResult.validationError ∧
    parseModelName "Alfa" = some ModelName.alfa := ⟨rfl, rfl, rfl⟩

/-- Claim C1 (corrected): the set of accepted `model_name` segments is
exactly the three enum member values "Alfa", "Beta" and "Gamma"; an
accepted segment invokes `get_model`, whose response has exactly the keys
`model_name` and `message`, and every other segment draws the framework's
validation error. -/
theorem models_accept_exactly_enum_values :
    (∀ s : String, (parseModelName s).isSome = (s == "Alfa" || s == "Beta" || s == "Gamma")) ∧
    (∀ m : ModelName,
      call_get_model m.value = ApiResult.ok (get_model m) ∧
      respKeys (get_model m) = ["model_name", "message"]) ∧
    (∀ s : String, parseModelName s = none → call_get_model s = ApiResult.validationError) := by
  refine ⟨fun s => ?_, fun m => ?_, fun s h => ?_⟩
  · simp only [parseModelName, ModelName.value]
    split_ifs with h1 h2 h3 <;> simp [*]
  · cases m <;> exact ⟨rfl, rfl⟩
  · simp [call_get_model, h]

/-- Witness for C1: the theorem applied at the concrete rejected segment
"alfa". -/
theorem models_accept_exactly_enum_values_witness :
    call_get_model "alfa" = ApiResult.validationError :=
  models_accept_exactly_enum_values.2.2 "alfa" rfl

/-- Claim C2 (code bug in the source): the file route is registered as
`"file/{file_path:path}"` with no leading slash, so its anchored template
starts with the literal `file/` while every HTTP request path starts with
`/`; no request path `/file/...` ever matches it (or any other route), and
the claimed response `{"file_path": p}` is never produced. -/
theorem file_route_is_unreachable :
    matchRoute "/file/abc" = none ∧
    (∀ p : String, matchRoute ("/file/" ++ p) = none) ∧
    read_file "abc" = Value.obj [("file_path", Value.str "abc")] :=
  ⟨rfl, fun _ => rfl, rfl⟩

/-- Claim C4 (confirmed): `needy` has no default, so omitting it draws the
framework's validation error and never a handler response; with `needy`
supplied and an integer `item_id`, the handler answers
`{"item": item_id, "needy": needy}`. -/
theorem required_needy_validation :
    (∀ item_id : Int, call_read_required_item item_id none = ApiResult.validationError) ∧
    (∀ (item_id : Int) (needy : String),
      call_read_required_item item_id (some needy) =
        ApiResult.ok (Value.obj [("item", Value.int item_id), ("needy", Value.str needy)])) :=
  ⟨fun _ => rfl, fun _ _ => rfl⟩

/-- Python slicing with nonnegative bounds `l[s : s + lim]` is dropping `s`
elements and taking `lim`. -/
theorem pySlice_nonneg (l : List Value) (s lim : Int) (hs : 0 ≤ s) (hl : 0 ≤ lim) :
    pySlice l s (s + lim) = (l.drop s.toNat).take lim.toNat := by
  unfold pySlice pySliceIdx
  rw [if_neg (by omega), if_neg (by omega)]
  have htake : l.take (min (s + lim).toNat l.length) = l.take (s + lim).toNat := by
    rcases le_total (s + lim).toNat l.length with h | h
    · rw [min_eq_left h]
    · rw [min_eq_right h, List.take_length, List.take_of_length_le h]
  have hdrop : ∀ m : List Value, m.drop (min s.toNat m.length) = m.drop s.toNat := by
    intro m
    rcases le_total s.toNat m.length with h | h
    · rw [min_eq_left h]
    · rw [min_eq_right h, List.drop_length, List.drop_eq_nil_of_le h]
  rw [htake]
  have hmin : min s.toNat l.length = min s.toNat (l.take (s + lim).toNat).length := by
    simp only [List.length_take]
    omega
  rw [hmin, hdrop, List.drop_take]
  congr 1
  omega

/-- Claim C7 (confirmed): on `GET /items/optional/`, an absent `skip` returns
the whole of `fake_items_db`, and a supplied nonnegative `skip` returns the
slice from `skip` to `skip + limit` (`limit` defaulting to 10), i.e. the
`limit`-element window starting at index `skip`. -/
theorem optional_items_skip_slice :
    (∀ limit : Int, read_optional_items none limit = Value.list fake_items_db) ∧
    (∀ skip limit : Int, 0 ≤ skip → 0 ≤ limit →
      read_optional_items (some skip) limit =
        Value.list ((fake_items_db.drop skip.toNat).take limit.toNat)) ∧
    read_optional_items (some 0) 10 = Value.list fake_items_db := by
  refine ⟨fun _ => rfl, fun skip limit hs hl => ?_, rfl⟩
  show Value.list (pySlice fake_items_db skip (skip + limit)) = _
  rw [pySlice_nonneg fake_items_db skip limit hs hl]

/-- Witness for C7: the theorem applied at `skip = 1`, `limit = 10`. -/
theorem optional_items_skip_slice_witness :
    read_optional_items (some 1) 10 = Value.list ((fake_items_db.drop 1).take 10) :=
  optional_items_skip_slice.2.1 1 10 (by omega) (by omega)

/-- Claim C3, counterexample: at `item_id = "1"`, no query parameters, the
response's keys are `item_id` and the misspelled `desciption`; the key
`description` claimed by the spec is absent. -/
theorem bool_item_description_key_misspelled :
    (respKeys (read_bool_item "1" none false)).contains "description" = false ∧
    respKeys (read_bool_item "1" none false) = ["item_id", "desciption"] := ⟨rfl, rfl⟩

/-- Claim C3 (corrected): the response of `GET /items/bool/{item_id}` always
contains the keys `item_id` and `desciption` (the source misspells
`description`), contains `q` when `q` is supplied and truthy, and the
`desciption` value marks the item short when `short` is true and long when
it is false. -/
theorem bool_item_has_description :
    ∀ (item_id : String) (q : Option String) (short : Bool),
      "desciption" ∈ respKeys (read_bool_item item_id q short) ∧
      "item_id" ∈ respKeys (read_bool_item item_id q short) ∧
      (pyTruthy q = true → "q" ∈ respKeys (read_bool_item item_id q short)) ∧
      respGet (read_bool_item item_id q short) "desciption" =
        some (Value.str (if short then "The description of the item is short"
                         else "The description of the item is long")) := by
  intro item_id q short
  cases hq : pyTruthy q <;> cases short <;>
    simp [read_bool_item, respKeys, respGet, hq, List.lookup]

/-- Witness for C3: the theorem applied at `("1", some "x", true)`, a truthy
`q`. -/
theorem bool_item_has_description_witness :
    "q" ∈ respKeys (read_bool_item "1" (some "x") true) :=
  (bool_item_has_description "1" (some "x") true).2.2.1 rfl

/-- Claim C8 (confirmed): any letter case of "true", "1" or "yes" coerces the
`short` query parameter to true, the value "false" coerces it to false, and
an absent `short` defaults to false. -/
theorem short_query_bool_coercion :
    (∀ s : String,
      (lowerStr s = "true" ∨ lowerStr s = "1" ∨ lowerStr s = "yes") →
      bindShort (some s) = some true) ∧
    bindShort (some "false") = some false ∧
    bindShort none = some false := by
  refine ⟨fun s h => ?_, rfl, rfl⟩
  show coerceBool s = some true
  unfold coerceBool
  rcases h with h | h | h <;> rw [h] <;> decide

/-- Witness for C8: the theorem applied at the mixed-case value "TRUE". -/
theorem short_query_bool_coercion_witness :
    bindShort (some "TRUE") = some true :=
  short_query_bool_coercion.1 "TRUE" (Or.inl rfl)

/-- One dispatch step leaves the database state unchanged. -/
theorem handleRequest_preserves_db (r : Request) (db : List Value) :
    (handleRequest r db).2 = db := by
  cases r <;> rfl

/-- Claim C9 (confirmed): `fake_items_db` is never mutated; after every
sequence of requests the database state equals its value at process start. -/
theorem fake_items_db_immutable :
    ∀ reqs : List Request, runRequests reqs fake_items_db = fake_items_db := by
  have h : ∀ (reqs : List Request) (db : List Value), runRequests reqs db = db := by
    intro reqs
    induction reqs with
    | nil => intro db; rfl
    | cons r rs ih =>
      intro db
      show runRequests rs (handleRequest r db).2 = db
      rw [handleRequest_preserves_db, ih]
  exact fun reqs => h reqs fake_items_db

/-- Claim C5 (confirmed): a GET request to `/users` dispatches to the first
declared handler `get_allUsers` and yields `{"all users": "users"}`; no
request path whatsoever dispatches to the second handler `get_users`
registered for the identical template, so `{"all users 2": "users"}` is
never produced. -/
theorem users_first_declaration_wins :
    matchRoute "/users" = some (Handler.get_allUsers, []) ∧
    get_allUsers = Value.obj [("all users", Value.str "users")] ∧
    get_users = Value.obj [("all users 2", Value.str "users")] ∧
    (∀ p : String, decide ((matchRoute p).map Prod.fst = some Handler.get_users) = false) := by
  refine ⟨rfl, rfl, rfl, fun p => ?_⟩
  rw [decide_eq_false_iff_not]
  intro h
  simp only [matchRoute, routes, findRoute] at h
  repeat' split at h
  all_goals simp_all

/-- Claim C6 (confirmed): `/users/me` dispatches to `read_current_user`
(answering `{"current user": "me"}`), not to the later wildcard route, whose
handler would have answered `{"user": "me"}`; every other nonempty
single-segment value `u` under `/users/` dispatches to `read_user` and
answers `{"user": u}`. -/
theorem users_me_not_shadowed :
    matchRoute "/users/me" = some (Handler.read_current_user, []) ∧
    read_current_user = Value.obj [("current user", Value.str "me")] ∧
    read_user "me" = Value.obj [("user", Value.str "me")] ∧
    (∀ u : String, u ≠ "" → u ≠ "me" → (∀ c ∈ u.toList, c ≠ '/') →
      matchRoute ("/users/" ++ u) = some (Handler.read_user, [("user", u)]) ∧
      read_user u = Value.obj [("user", Value.str u)]) := by
  refine ⟨rfl, rfl, rfl, fun u hne hme hslash => ⟨?_, rfl⟩⟩
  have hcs : ("/users/" ++ u).toList
      = '/' :: 'u' :: 's' :: 'e' :: 'r' :: 's' :: '/' :: u.toList := by
    simp [String.toList, String.data_append]
  have hnil : u.toList ≠ [] := by
    intro hc
    exact hne (String.ext (by simpa [String.toList] using hc))
  have r1 : matchParts [Part.lit "/"]
      ('/' :: 'u' :: 's' :: 'e' :: 'r' :: 's' :: '/' :: u.toList) = none := rfl
  have r2 : matchParts [Part.lit "/items/", Part.param "item_id"]
      ('/' :: 'u' :: 's' :: 'e' :: 'r' :: 's' :: '/' :: u.toList) = none := rfl
  have r3 : matchParts [Part.lit "/users/me"]
      ('/' :: 'u' :: 's' :: 'e' :: 'r' :: 's' :: '/' :: u.toList) = none := by
    have e : matchParts [Part.lit "/users/me"]
        ('/' :: 'u' :: 's' :: 'e' :: 'r' :: 's' :: '/' :: u.toList)
        = match stripChars ['m', 'e'] u.toList with
          | some rest => matchParts [] rest
          | none => none := rfl
    rw [e]
    cases h : stripChars ['m', 'e'] u.toList with
    | none => rfl
    | some rest =>
      cases rest with
      | nil =>
        exfalso
        apply hme
        have hu : u.toList = ['m', 'e'] := by
          simpa using (stripChars_eq_some ['m', 'e'] u.toList []).mp h
        exact String.ext (by simpa [String.toList] using hu)
      | cons c r => rfl
  have htw : u.toList.takeWhile (fun c => !(c == '/')) = u.toList := by
    rw [List.takeWhile_eq_self_iff]
    intro c hc
    simpa using hslash c hc
  have hdw : u.toList.dropWhile (fun c => !(c == '/')) = [] := by
    rw [List.dropWhile_eq_nil_iff]
    intro c hc
    simpa using hslash c hc
  have hie : u.toList.isEmpty = false := by
    cases h : u.toList with
    | nil => exact absurd h hnil
    | cons c r => rfl
  have r4 : matchParts [Part.lit "/users/", Part.param "user"]
      ('/' :: 'u' :: 's' :: 'e' :: 'r' :: 's' :: '/' :: u.toList)
      = some [("user", u)] := by
    show matchParts [Part.param "user"] u.toList = some [("user", u)]
    simp only [matchParts, htw, hdw, hie]
    rfl
  show findRoute routes ("/users/" ++ u).toList = some (Handler.read_user, [("user", u)])
  rw [hcs]
  simp only [routes, findRoute, r1, r2, r3, r4]

/-- Witness for C6: the theorem applied at the concrete segment "alice". -/
theorem users_me_not_shadowed_witness :
    matchRoute "/users/alice" = some (Handler.read_user, [("user", "alice")]) :=
  (users_me_not_shadowed.2.2.2 "alice" (by decide) (by decide) (by decide)).1

end FastApiApp
